import Mathlib

/-!
Shallow embedding of the ads122x04 driver (ADS122C04 / ADS122U04 ADC driver,
sources `src/lib.rs`, `src/registers.rs`, `src/interface.rs`) and proofs about
its register encoding/decoding, transport byte traces, and mirror-state
invariants.  Machine integers (`u8`, `u32`) are modelled as `Nat` with explicit
`% 2 ^ w` where Rust truncates; `i32` values as `Int`; fallible operations as
`Except`.
-/

set_option maxRecDepth 4000

/-! ## Enumerations from `src/registers.rs` -/

/-- Commands to send to the device (`registers.rs`, enum `Commands`). -/
inductive Commands
  | Reset
  | StartSync
  | PowerDown
  | RData
  | RReg
  | WReg
deriving DecidableEq, Repr

/-- Discriminant values of `Commands` as written in the source. -/
def Commands.toVal : Commands → Nat
  | .Reset => 0b110
  | .StartSync => 0b1000
  | .PowerDown => 0b10
  | .RData => 0b10000
  | .RReg => 0b0100000
  | .WReg => 0b1000000

/-- Input multiplexer setting (`registers.rs`, enum `Mux`). -/
inductive Mux
  | Ain0Ain1 | Ain0Ain2 | Ain0Ain3 | Ain1Ain0 | Ain1Ain2 | Ain1Ain3
  | Ain2Ain3 | Ain3Ain2 | Ain0Avss | Ain1Avss | Ain2Avss | Ain3Avss
  | VrefMonitor | AvddMonitor | Shorted
deriving DecidableEq, Repr, Fintype

/-- Discriminant values of `Mux` as written in the source. -/
def Mux.toVal : Mux → Nat
  | .Ain0Ain1 => 0b0000
  | .Ain0Ain2 => 0b0001
  | .Ain0Ain3 => 0b0010
  | .Ain1Ain0 => 0b0011
  | .Ain1Ain2 => 0b0100
  | .Ain1Ain3 => 0b0101
  | .Ain2Ain3 => 0b0110
  | .Ain3Ain2 => 0b0111
  | .Ain0Avss => 0b1000
  | .Ain1Avss => 0b1001
  | .Ain2Avss => 0b1010
  | .Ain3Avss => 0b1011
  | .VrefMonitor => 0b1100
  | .AvddMonitor => 0b1101
  | .Shorted => 0b1110

/-- Data rate setting (`registers.rs`, enum `DataRate`). -/
inductive DataRate
  | Sps20Normal | Sps45Normal | Sps90Normal | Sps175Normal
  | Sps330Normal | Sps600Normal | Sps1000Normal
  | Sps40Turbo | Sps90Turbo | Sps180Turbo | Sps350Turbo
  | Sps660Turbo | Sps1200Turbo | Sps2000Turbo
deriving DecidableEq, Repr, Fintype

/-- Discriminant values of `DataRate` as written in the source. -/
def DataRate.toVal : DataRate → Nat
  | .Sps20Normal => 0b0000
  | .Sps45Normal => 0b0010
  | .Sps90Normal => 0b0100
  | .Sps175Normal => 0b0110
  | .Sps330Normal => 0b1000
  | .Sps600Normal => 0b1010
  | .Sps1000Normal => 0b1100
  | .Sps40Turbo => 0b0001
  | .Sps90Turbo => 0b0011
  | .Sps180Turbo => 0b0101
  | .Sps350Turbo => 0b0111
  | .Sps660Turbo => 0b1001
  | .Sps1200Turbo => 0b1011
  | .Sps2000Turbo => 0b1101

/-- `DataRate::from` (`registers.rs`): decode a code, defaulting to `Sps20Normal`. -/
def DataRate.fromVal : Nat → DataRate
  | 0b0000 => .Sps20Normal
  | 0b0010 => .Sps45Normal
  | 0b0100 => .Sps90Normal
  | 0b0110 => .Sps175Normal
  | 0b1000 => .Sps330Normal
  | 0b1010 => .Sps600Normal
  | 0b1100 => .Sps1000Normal
  | 0b0001 => .Sps40Turbo
  | 0b0011 => .Sps90Turbo
  | 0b0101 => .Sps180Turbo
  | 0b0111 => .Sps350Turbo
  | 0b1001 => .Sps660Turbo
  | 0b1011 => .Sps1200Turbo
  | 0b1101 => .Sps2000Turbo
  | _ => .Sps20Normal

/-- Programmable gain amplifier gain (`registers.rs`, enum `Gain`). -/
inductive Gain
  | Gain1 | Gain2 | Gain4 | Gain8 | Gain16 | Gain32 | Gain64 | Gain128
deriving DecidableEq, Repr, Fintype

/-- Discriminant values of `Gain` as written in the source. -/
def Gain.toVal : Gain → Nat
  | .Gain1 => 0b000
  | .Gain2 => 0b001
  | .Gain4 => 0b010
  | .Gain8 => 0b011
  | .Gain16 => 0b100
  | .Gain32 => 0b101
  | .Gain64 => 0b110
  | .Gain128 => 0b111

/-- `Gain::from` (`registers.rs`): decode a code, defaulting to `Gain1`. -/
def Gain.fromVal : Nat → Gain
  | 0b000 => .Gain1
  | 0b001 => .Gain2
  | 0b010 => .Gain4
  | 0b011 => .Gain8
  | 0b100 => .Gain16
  | 0b101 => .Gain32
  | 0b110 => .Gain64
  | 0b111 => .Gain128
  | _ => .Gain1

/-- Excitation current source level (`registers.rs`, enum `CurrentSource`). -/
inductive CurrentSource
  | Off | I10uA | I50uA | I100uA | I250uA | I500uA | I1000uA | I1500uA
deriving DecidableEq, Repr, Fintype

/-- Discriminant values of `CurrentSource` as written in the source. -/
def CurrentSource.toVal : CurrentSource → Nat
  | .Off => 0b000
  | .I10uA => 0b001
  | .I50uA => 0b010
  | .I100uA => 0b011
  | .I250uA => 0b100
  | .I500uA => 0b101
  | .I1000uA => 0b110
  | .I1500uA => 0b111

/-- `CurrentSource::from` (`registers.rs`): decode a code, defaulting to `Off`. -/
def CurrentSource.fromVal : Nat → CurrentSource
  | 0b001 => .I10uA
  | 0b010 => .I50uA
  | 0b011 => .I100uA
  | 0b100 => .I250uA
  | 0b101 => .I500uA
  | 0b110 => .I1000uA
  | 0b111 => .I1500uA
  | _ => .Off

/-- Excitation current routing (`registers.rs`, enum `CurrentRoute`). -/
inductive CurrentRoute
  | Off | Ain0 | Ain1 | Ain2 | Ain3 | RefP | RefN
deriving DecidableEq, Repr, Fintype

/-- Discriminant values of `CurrentRoute` as written in the source. -/
def CurrentRoute.toVal : CurrentRoute → Nat
  | .Off => 0b000
  | .Ain0 => 0b001
  | .Ain1 => 0b010
  | .Ain2 => 0b011
  | .Ain3 => 0b100
  | .RefP => 0b101
  | .RefN => 0b110

/-- `CurrentRoute::from` (`registers.rs`): decode a code, defaulting to `Off`. -/
def CurrentRoute.fromVal : Nat → CurrentRoute
  | 0b001 => .Ain0
  | 0b010 => .Ain1
  | 0b011 => .Ain2
  | 0b100 => .Ain3
  | 0b101 => .RefP
  | 0b110 => .RefN
  | _ => .Off

/-- Conversion mode (`registers.rs`, enum `ConversionMode`). -/
inductive ConversionMode
  | SingleShot | Continuous
deriving DecidableEq, Repr, Fintype

/-- Discriminant values of `ConversionMode` as written in the source. -/
def ConversionMode.toVal : ConversionMode → Nat
  | .SingleShot => 0
  | .Continuous => 1

/-- `ConversionMode::from` (`registers.rs`): 0 is single shot, anything else continuous. -/
def ConversionMode.fromVal : Nat → ConversionMode
  | 0 => .SingleShot
  | _ => .Continuous

/-- CRC mode (`registers.rs`, enum `Crc`). -/
inductive Crc
  | Disabled | Inverted | Crc16
deriving DecidableEq, Repr, Fintype

/-- Discriminant values of `Crc` as written in the source. -/
def Crc.toVal : Crc → Nat
  | .Disabled => 0b00
  | .Inverted => 0b01
  | .Crc16 => 0b10

/-- `Crc::from` (`registers.rs`): decode a code, defaulting to `Disabled`. -/
def Crc.fromVal : Nat → Crc
  | 0b01 => .Inverted
  | 0b10 => .Crc16
  | _ => .Disabled

/-- Voltage reference (`registers.rs`, enum `VRef`).  The `f32` payload of the
external / analog-supply variants is modelled as an exact rational. -/
inductive VRef
  | Internal
  | External (v : ℚ)
  | AnalogSupply (v : ℚ)
deriving DecidableEq, Repr

/-- `VRef::to_val` (`registers.rs`): the 2-bit register code of the reference. -/
def VRef.to_val : VRef → Nat
  | .Internal => 0b00
  | .External _ => 0b01
  | .AnalogSupply _ => 0b10

/-- `VRef::to_voltage` (`registers.rs`): the reference voltage in volts. -/
def VRef.to_voltage : VRef → ℚ
  | .Internal => 2048 / 1000
  | .External v => v
  | .AnalogSupply v => v

/-- `VRef::from` (`registers.rs`): decode a 2-bit code together with the known
voltage, defaulting to `Internal`. -/
def VRef.fromVal : Nat → ℚ → VRef
  | 0b00, _ => .Internal
  | 0b01, voltage => .External voltage
  | 0b10, voltage => .AnalogSupply voltage
  | _, _ => .Internal

/-! ## Device handle state (`src/lib.rs`, struct `ADS122x04` minus the bus) -/

/-- The configuration mirror kept in the `ADS122x04` struct (`lib.rs`),
i.e. every field of the handle except the bus itself. -/
structure Config where
  v_ref : VRef
  gain : Gain
  mux : Mux
  current_source : CurrentSource
  current_route_1 : CurrentRoute
  current_route_2 : CurrentRoute
  data_rate : DataRate
  pga_bypass : Bool
  turbo_mode : Bool
  conversion_mode : ConversionMode
  temperature_sensor_mode : Bool
  data_counter_enable : Bool
  crc : Crc
  burn_out_current_sources : Bool
deriving DecidableEq, Repr

/-- The mirror state installed by `new_i2c` / `new_serial` (`lib.rs`). -/
def initConfig : Config where
  v_ref := .Internal
  gain := .Gain1
  mux := .Ain0Ain1
  current_source := .Off
  current_route_1 := .Off
  current_route_2 := .Off
  data_rate := .Sps20Normal
  pga_bypass := false
  turbo_mode := false
  conversion_mode := .SingleShot
  temperature_sensor_mode := false
  data_counter_enable := false
  crc := .Disabled
  burn_out_current_sources := false

/-- `bool as u8` in Rust: `true` is 1, `false` is 0. -/
def b2n (b : Bool) : Nat := if b then 1 else 0

/-! ### Register byte packing (`update_reg` in `lib.rs`)

Each arm of `update_reg`'s match packs the mirror fields into one `u8`.
Rust's `<<` on `u8` keeps only the low 8 bits of the result, hence the
explicit `% 256` on each shifted field. -/

/-- The byte `update_reg` writes to config register 0x00:
`pga_bypass | gain << 1 | mux << 4`. -/
def reg0val (c : Config) : Nat :=
  b2n c.pga_bypass ||| (c.gain.toVal <<< 1) % 256 ||| (c.mux.toVal <<< 4) % 256

/-- The byte `update_reg` writes to config register 0x01:
`ts | v_ref.to_val() << 1 | conversion_mode << 3 | turbo_mode << 4 | data_rate << 5`. -/
def reg1val (c : Config) : Nat :=
  b2n c.temperature_sensor_mode ||| (c.v_ref.to_val <<< 1) % 256
    ||| (c.conversion_mode.toVal <<< 3) % 256 ||| (b2n c.turbo_mode <<< 4) % 256
    ||| (c.data_rate.toVal <<< 5) % 256

/-- The byte `update_reg` writes to config register 0x02:
`current_source | burn_out << 3 | crc << 4 | data_counter << 6`. -/
def reg2val (c : Config) : Nat :=
  c.current_source.toVal ||| (b2n c.burn_out_current_sources <<< 3) % 256
    ||| (c.crc.toVal <<< 4) % 256 ||| (b2n c.data_counter_enable <<< 6) % 256

/-- The byte `update_reg` writes to config register 0x03:
`current_route_2 << 2 | current_route_1 << 5`. -/
def reg3val (c : Config) : Nat :=
  (c.current_route_2.toVal <<< 2) % 256 ||| (c.current_route_1.toVal <<< 5) % 256

/-! ### Per-field getter decoders (`lib.rs`)

Each public getter reads a register byte and decodes one field with a
mask-and-shift expression; these are those expressions, applied to the
register byte `val`. -/

/-- Decoder of `get_pga_bypass`: `(val & 0b1) == 1`. -/
def decode_pga_bypass (val : Nat) : Bool := (val &&& 0b1) == 1

/-- Decoder of `get_gain`: `Gain::from((val >> 1) & 0b111)`. -/
def decode_gain (val : Nat) : Gain := Gain.fromVal ((val >>> 1) &&& 0b111)

/-- Decoder of `get_input_mux`: `val >> 4` (returned as a raw code). -/
def decode_input_mux (val : Nat) : Nat := val >>> 4

/-- Decoder of `get_temperature_sensor_mode`: `(val & 0b1) == 1`. -/
def decode_temperature_sensor_mode (val : Nat) : Bool := (val &&& 0b1) == 1

/-- Decoder of `get_vref`: `VRef::from((val >> 1) & 0b11, self.v_ref.to_voltage())`. -/
def decode_vref (val : Nat) (voltage : ℚ) : VRef := VRef.fromVal ((val >>> 1) &&& 0b11) voltage

/-- Decoder of `get_conversion_mode`: `ConversionMode::from((val >> 3) & 0b1)`. -/
def decode_conversion_mode (val : Nat) : ConversionMode := ConversionMode.fromVal ((val >>> 3) &&& 0b1)

/-- Decoder of `get_operating_mode`: `((val >> 4) & 0b1) == 1`. -/
def decode_operating_mode (val : Nat) : Bool := ((val >>> 4) &&& 0b1) == 1

/-- Decoder of `get_data_rate`: `DataRate::from((val >> 4) & 0b1111)`. -/
def decode_data_rate (val : Nat) : DataRate := DataRate.fromVal ((val >>> 4) &&& 0b1111)

/-- Decoder of `get_current_level`: `CurrentSource::from(val & 0b111)`. -/
def decode_current_level (val : Nat) : CurrentSource := CurrentSource.fromVal (val &&& 0b111)

/-- Decoder of `get_burnout_current_source`: `((val >> 3) & 0b1) == 1`. -/
def decode_burnout_current_source (val : Nat) : Bool := ((val >>> 3) &&& 0b1) == 1

/-- Decoder of `get_crc`: `Crc::from((val >> 4) & 0b11)`. -/
def decode_crc (val : Nat) : Crc := Crc.fromVal ((val >>> 4) &&& 0b11)

/-- Decoder of `get_data_counter`: `((val >> 6) & 0b1) == 1`. -/
def decode_data_counter (val : Nat) : Bool := ((val >>> 6) &&& 0b1) == 1

/-- Decoder of `get_current_route_1`: `CurrentRoute::from((val >> 5) & 0b111)`. -/
def decode_current_route_1 (val : Nat) : CurrentRoute := CurrentRoute.fromVal ((val >>> 5) &&& 0b111)

/-- Decoder of `get_current_route_2`: `CurrentRoute::from((val >> 3) & 0b111)`. -/
def decode_current_route_2 (val : Nat) : CurrentRoute := CurrentRoute.fromVal ((val >>> 3) &&& 0b111)

/-! ## Bus abstraction (`lib.rs` trait bounds `ReadData` / `WriteData`)

The generic `BUS` of `ADS122x04` is modelled as a record of possibly failing
operations, and every device-layer function additionally returns the list of
bus calls it attempted, so that "no transport I/O" is the empty trace. -/

/-- One call into the bus/stream interface. -/
inductive BusOp
  | writeRegisterOp (reg val : Nat)
  | readRegisterOp (reg : Nat)
  | writeDataOp (payload : Nat)
  | readDataOp
deriving DecidableEq, Repr

/-- Behaviour of a concrete bus: each operation may fail with a transport
error of type `E`. -/
structure BusModel (E : Type) where
  writeRegisterFn : Nat → Nat → Except E Unit
  readRegisterFn : Nat → Except E Nat
  writeDataFn : Nat → Except E Unit
  readDataFn : Except E Nat

/-- The error enum of `lib.rs` (`Error<E>`): an invalid value entered locally,
or a communication error from the bus. -/
inductive DevError (E : Type)
  | InvalidValue
  | CommError (e : E)
deriving DecidableEq, Repr

/-- Run `bus.write_register(reg, val)`, wrapping a transport failure in
`CommError` and recording the call in the trace. -/
def busWriteRegister (bus : BusModel E) (reg val : Nat) :
    Except (DevError E) Unit × List BusOp :=
  (match bus.writeRegisterFn reg val with
    | .ok _ => .ok ()
    | .error e => .error (.CommError e),
   [.writeRegisterOp reg val])

/-- Run `bus.read_register(reg)`, wrapping a transport failure in `CommError`
and recording the call in the trace. -/
def busReadRegister (bus : BusModel E) (reg : Nat) :
    Except (DevError E) Nat × List BusOp :=
  (match bus.readRegisterFn reg with
    | .ok v => .ok v
    | .error e => .error (.CommError e),
   [.readRegisterOp reg])

/-- Run `bus.write_data(payload)`, wrapping a transport failure in `CommError`
and recording the call in the trace. -/
def busWriteData (bus : BusModel E) (payload : Nat) :
    Except (DevError E) Unit × List BusOp :=
  (match bus.writeDataFn payload with
    | .ok _ => .ok ()
    | .error e => .error (.CommError e),
   [.writeDataOp payload])

/-! ## Device-layer operations (`lib.rs`) -/

/-- `update_reg` (`lib.rs`): pack the mirror fields for config register `reg`
and write the byte; any other address is rejected locally with
`InvalidValue` and produces no bus call. -/
def update_reg (bus : BusModel E) (c : Config) (reg : Nat) :
    Except (DevError E) Unit × List BusOp :=
  match reg with
  | 0x00 => busWriteRegister bus 0x00 (reg0val c)
  | 0x01 => busWriteRegister bus 0x01 (reg1val c)
  | 0x02 => busWriteRegister bus 0x02 (reg2val c)
  | 0x03 => busWriteRegister bus 0x03 (reg3val c)
  | _ => (.error .InvalidValue, [])

/-- `read_reg` (`lib.rs`): read one of the four config registers; any other
address is rejected locally with `InvalidValue` and produces no bus call. -/
def read_reg (bus : BusModel E) (reg : Nat) :
    Except (DevError E) Nat × List BusOp :=
  match reg with
  | 0x00 => busReadRegister bus 0x00
  | 0x01 => busReadRegister bus 0x01
  | 0x02 => busReadRegister bus 0x02
  | 0x03 => busReadRegister bus 0x03
  | _ => (.error .InvalidValue, [])

/-- Result of a setter call: the mirror state after the call, the returned
`Result`, and the trace of attempted bus operations. -/
structure SetterResult (E : Type) where
  cfg : Config
  res : Except (DevError E) Unit
  trace : List BusOp

/-- Build a `SetterResult` from a new mirror and an `update_reg` run. -/
def setterRun (c : Config) (r : Except (DevError E) Unit × List BusOp) :
    SetterResult E :=
  ⟨c, r.1, r.2⟩

/-- `set_pga_bypass` (`lib.rs`): store the flag, then write register 0x00. -/
def set_pga_bypass (bus : BusModel E) (c : Config) (state : Bool) : SetterResult E :=
  let c := { c with pga_bypass := state }
  setterRun c (update_reg bus c 0x00)

/-- `set_gain` (`lib.rs`): store the gain, then write register 0x00. -/
def set_gain (bus : BusModel E) (c : Config) (gain : Gain) : SetterResult E :=
  let c := { c with gain := gain }
  setterRun c (update_reg bus c 0x00)

/-- `set_input_mux` (`lib.rs`): store the mux, then write register 0x00. -/
def set_input_mux (bus : BusModel E) (c : Config) (mux : Mux) : SetterResult E :=
  let c := { c with mux := mux }
  setterRun c (update_reg bus c 0x00)

/-- `set_temperature_sensor_mode` (`lib.rs`): store the flag, then write
register 0x01. -/
def set_temperature_sensor_mode (bus : BusModel E) (c : Config) (state : Bool) :
    SetterResult E :=
  let c := { c with temperature_sensor_mode := state }
  setterRun c (update_reg bus c 0x01)

/-- `set_vref` (`lib.rs`): store the reference, then write register 0x01. -/
def set_vref (bus : BusModel E) (c : Config) (v_ref : VRef) : SetterResult E :=
  let c := { c with v_ref := v_ref }
  setterRun c (update_reg bus c 0x01)

/-- `set_conversion_mode` (`lib.rs`): store the mode, then write register 0x01. -/
def set_conversion_mode (bus : BusModel E) (c : Config) (mode : ConversionMode) :
    SetterResult E :=
  let c := { c with conversion_mode := mode }
  setterRun c (update_reg bus c 0x01)

/-- `set_data_rate` (`lib.rs`): store the rate, derive and store the turbo
flag from the low bit of the stored code, then write register 0x01. -/
def set_data_rate (bus : BusModel E) (c : Config) (rate : DataRate) : SetterResult E :=
  let c := { c with data_rate := rate }
  let c := { c with turbo_mode := (c.data_rate.toVal &&& 0b1) == 1 }
  setterRun c (update_reg bus c 0x01)

/-- `set_current_level` (`lib.rs`): store the level, then write register 0x02. -/
def set_current_level (bus : BusModel E) (c : Config) (current : CurrentSource) :
    SetterResult E :=
  let c := { c with current_source := current }
  setterRun c (update_reg bus c 0x02)

/-- `set_burnout_current_source` (`lib.rs`): store the flag, then write
register 0x02. -/
def set_burnout_current_source (bus : BusModel E) (c : Config) (state : Bool) :
    SetterResult E :=
  let c := { c with burn_out_current_sources := state }
  setterRun c (update_reg bus c 0x02)

/-- `set_crc` (`lib.rs`): store the mode, then write register 0x02. -/
def set_crc (bus : BusModel E) (c : Config) (crc : Crc) : SetterResult E :=
  let c := { c with crc := crc }
  setterRun c (update_reg bus c 0x02)

/-- `set_data_counter` (`lib.rs`): store the flag, then write register 0x02. -/
def set_data_counter (bus : BusModel E) (c : Config) (state : Bool) : SetterResult E :=
  let c := { c with data_counter_enable := state }
  setterRun c (update_reg bus c 0x02)

/-- `set_current_route_1` (`lib.rs`): store the route, then write register 0x03. -/
def set_current_route_1 (bus : BusModel E) (c : Config) (route : CurrentRoute) :
    SetterResult E :=
  let c := { c with current_route_1 := route }
  setterRun c (update_reg bus c 0x03)

/-- `set_current_route_2` (`lib.rs`): store the route, then write register 0x03. -/
def set_current_route_2 (bus : BusModel E) (c : Config) (route : CurrentRoute) :
    SetterResult E :=
  let c := { c with current_route_2 := route }
  setterRun c (update_reg bus c 0x03)

/-! ## Setter operations as a step relation (for reachable-state claims) -/

/-- One public setter call on the device handle, with its argument. -/
inductive Op
  | opPgaBypass (state : Bool)
  | opGain (gain : Gain)
  | opInputMux (mux : Mux)
  | opTempSensorMode (state : Bool)
  | opVref (v_ref : VRef)
  | opConversionMode (mode : ConversionMode)
  | opDataRate (rate : DataRate)
  | opCurrentLevel (current : CurrentSource)
  | opBurnout (state : Bool)
  | opCrc (crc : Crc)
  | opDataCounter (state : Bool)
  | opCurrentRoute1 (route : CurrentRoute)
  | opCurrentRoute2 (route : CurrentRoute)
deriving DecidableEq, Repr

/-- Dispatch one setter call against a given bus. -/
def runOp (bus : BusModel E) (c : Config) : Op → SetterResult E
  | .opPgaBypass s => set_pga_bypass bus c s
  | .opGain g => set_gain bus c g
  | .opInputMux m => set_input_mux bus c m
  | .opTempSensorMode s => set_temperature_sensor_mode bus c s
  | .opVref v => set_vref bus c v
  | .opConversionMode m => set_conversion_mode bus c m
  | .opDataRate r => set_data_rate bus c r
  | .opCurrentLevel l => set_current_level bus c l
  | .opBurnout s => set_burnout_current_source bus c s
  | .opCrc v => set_crc bus c v
  | .opDataCounter s => set_data_counter bus c s
  | .opCurrentRoute1 r => set_current_route_1 bus c r
  | .opCurrentRoute2 r => set_current_route_2 bus c r

/-- A bus on which every operation succeeds (reads return 0).  The mirror
update performed by a setter does not depend on the bus outcome, so this bus
serves to define the pure state transition. -/
def okBus : BusModel Unit where
  writeRegisterFn := fun _ _ => .ok ()
  readRegisterFn := fun _ => .ok 0
  writeDataFn := fun _ => .ok ()
  readDataFn := .ok 0

/-- A bus on which every operation fails with a transport error. -/
def failBus : BusModel Unit where
  writeRegisterFn := fun _ _ => .error ()
  readRegisterFn := fun _ => .error ()
  writeDataFn := fun _ => .error ()
  readDataFn := .error ()

/-- The pure mirror-state transition of one setter call. -/
def applyOp (c : Config) (op : Op) : Config := (runOp okBus c op).cfg

/-- Mirror state after a sequence of setter calls starting from construction. -/
def runOps (ops : List Op) : Config := ops.foldl applyOp initConfig

/-! ## Raw sample conversion (`lib.rs`) -/

/-- Reinterpret a `u32` as an `i32` the way `x as i32` does in Rust. -/
def i32_of_u32 (x : Nat) : Int :=
  if x % 4294967296 < 2147483648 then ((x % 4294967296 : Nat) : Int)
  else ((x % 4294967296 : Nat) : Int) - 4294967296

/-- `raw_to_signed` (`lib.rs`): if `x >> 23 == 1`, negate the value of the low
23 bits, else return `x as i32`. -/
def raw_to_signed (x : Nat) : Int :=
  if x >>> 23 = 1 then -(i32_of_u32 (x &&& 0b11111111111111111111111))
  else i32_of_u32 x

/-! ## Transport interfaces (`src/interface.rs`)

Each interface method is modelled by the sequence of bytes it puts on the
wire and the number of flush calls it makes.  For the read paths, the
response handling is modelled over an explicit stream of response bytes. -/

/-- Bytes emitted on the wire by one interface call, together with the number
of flush calls performed. -/
structure Emission where
  bytes : List Nat
  flushes : Nat
deriving DecidableEq, Repr

/-- `I2cInterface::write_register` (`interface.rs`): one write of
`[WReg | (register << 1), data]`.  The shift is on a `u8`, hence `% 256`. -/
def I2cInterface.write_register (register data : Nat) : Emission :=
  ⟨[Commands.WReg.toVal ||| (register <<< 1) % 256, data], 0⟩

/-- `I2cInterface::write_data` (`interface.rs`): one write of `[payload]`. -/
def I2cInterface.write_data (payload : Nat) : Emission :=
  ⟨[payload], 0⟩

/-- Request bytes of `I2cInterface::read_register` (`interface.rs`): one
write-read with request `[RReg | (register << 1)]`. -/
def I2cInterface.read_register_request (register : Nat) : Emission :=
  ⟨[Commands.RReg.toVal ||| (register <<< 1) % 256], 0⟩

/-- Request bytes of `I2cInterface::read_data` (`interface.rs`): one
write-read with request `[RData]`. -/
def I2cInterface.read_data_request : Emission :=
  ⟨[Commands.RData.toVal], 0⟩

/-- Response handling of `I2cInterface::read_data` (`interface.rs`): the
write-read fills a 3-byte buffer `[msb, csb, lsb]` and the result is
`(msb as u32) << 16 | (csb as u32) << 8 | (lsb as u32)`. -/
def I2cInterface.read_data_value (msb csb lsb : Nat) : Nat :=
  (msb <<< 16) ||| (csb <<< 8) ||| lsb

/-- `SerialInterface::write_register` (`interface.rs`): one
`bwrite_all(&[0x55, WReg | (register << 1), data])` followed by one flush. -/
def SerialInterface.write_register (register data : Nat) : Emission :=
  ⟨[0x55, Commands.WReg.toVal ||| (register <<< 1) % 256, data], 1⟩

/-- `SerialInterface::write_data` (`interface.rs`): one
`bwrite_all(&[0x55, payload])` followed by one flush. -/
def SerialInterface.write_data (payload : Nat) : Emission :=
  ⟨[0x55, payload], 1⟩

/-- Request bytes of `SerialInterface::read_register` (`interface.rs`): one
`bwrite_all(&[0x55, RReg | (register << 1)])` followed by one flush. -/
def SerialInterface.read_register_request (register : Nat) : Emission :=
  ⟨[0x55, Commands.RReg.toVal ||| (register <<< 1) % 256], 1⟩

/-- Request bytes of `SerialInterface::read_data` (`interface.rs`): one
`bwrite_all(&[0x55, RData])` followed by one flush. -/
def SerialInterface.read_data_request : Emission :=
  ⟨[0x55, Commands.RData.toVal], 1⟩

/-- Response handling of `SerialInterface::read_data` (`interface.rs`): three
blocking reads `msb`, `csb`, `lsb` off the response stream, assembled as
`(msb as u32) << 16 | (csb as u32) << 8 | (lsb as u32)`; fails if fewer than
three bytes arrive. -/
def SerialInterface.read_data_responses (input : List Nat) : Option (Nat × List Nat) :=
  match input with
  | msb :: csb :: lsb :: rest => some ((msb <<< 16) ||| (csb <<< 8) ||| lsb, rest)
  | _ => none

/-! ## Helper lemmas -/

/-- Or-ing a left-shifted value with a value that fits below the shift is
plain addition. -/
theorem lor_shiftLeft_add (a b k : Nat) (hb : b < 2 ^ k) :
    a <<< k ||| b = a * 2 ^ k + b := by
  rw [Nat.shiftLeft_eq, Nat.mul_comm a (2 ^ k)]
  exact (Nat.mul_add_lt_is_or hb a).symm

/-- The stored turbo flag agrees with the low bit of the stored data-rate
code. -/
def turboConsistent (c : Config) : Prop :=
  c.turbo_mode = ((c.data_rate.toVal &&& 0b1) == 1)

/-- Every single setter call preserves turbo/data-rate consistency. -/
theorem applyOp_turboConsistent (c : Config) (op : Op)
    (h : turboConsistent c) : turboConsistent (applyOp c op) := by
  cases op <;> first | exact h | rfl

/-- Folding setter calls preserves turbo/data-rate consistency. -/
theorem foldl_turboConsistent (ops : List Op) (c : Config)
    (h : turboConsistent c) : turboConsistent (ops.foldl applyOp c) := by
  induction ops generalizing c with
  | nil => exact h
  | cons op rest ih => exact ih _ (applyOp_turboConsistent c op h)

/-- Which mirror field a setter call targets, and that it holds the call's
argument. -/
def opMirrorHolds : Op → Config → Prop
  | .opPgaBypass s, c => c.pga_bypass = s
  | .opGain g, c => c.gain = g
  | .opInputMux m, c => c.mux = m
  | .opTempSensorMode s, c => c.temperature_sensor_mode = s
  | .opVref v, c => c.v_ref = v
  | .opConversionMode m, c => c.conversion_mode = m
  | .opDataRate r, c => c.data_rate = r
  | .opCurrentLevel l, c => c.current_source = l
  | .opBurnout s, c => c.burn_out_current_sources = s
  | .opCrc v, c => c.crc = v
  | .opDataCounter s, c => c.data_counter_enable = s
  | .opCurrentRoute1 r, c => c.current_route_1 = r
  | .opCurrentRoute2 r, c => c.current_route_2 = r

/-! ## Claim theorems -/

/-- Claim C2 (code bug): `raw_to_signed` is not two's-complement sign
extension.  It agrees with the claim on 0x000000 and 0x7FFFFF, but on
0x800000 it returns 0 (claim: -8388608) and on 0xFFFFFF it returns
-8388607 (claim: -1), because it negates the low 23 bits instead of
subtracting 2^24. -/
theorem raw_to_signed_negates_magnitude :
    raw_to_signed 0x000000 = 0 ∧ raw_to_signed 0x7FFFFF = 8388607 ∧
    raw_to_signed 0x800000 = 0 ∧ raw_to_signed 0xFFFFFF = -8388607 ∧
    raw_to_signed 0x800000 ≠ -8388608 ∧ raw_to_signed 0xFFFFFF ≠ -1 := by
  decide

/-- Claim C3: for every register address 4 or above, both `update_reg` and
`read_reg` fail locally with `InvalidValue` and attempt no bus operation
(empty trace). -/
theorem invalid_register_address_no_io (E : Type) (bus : BusModel E)
    (c : Config) (reg : Nat) (h : 4 ≤ reg) :
    update_reg bus c reg = (.error .InvalidValue, []) ∧
    read_reg bus reg = (.error .InvalidValue, []) := by
  obtain ⟨m, rfl⟩ : ∃ m, reg = m + 4 := ⟨reg - 4, by omega⟩
  exact ⟨rfl, rfl⟩

/-- Witness for claim C3 at register address 4 on a concrete bus. -/
theorem invalid_register_address_no_io_witness :
    update_reg okBus initConfig 4 = (.error .InvalidValue, []) ∧
    read_reg okBus 4 = (.error .InvalidValue, []) :=
  invalid_register_address_no_io Unit okBus initConfig 4 (by decide)

/-- Claim C1 (code bug): the encode/decode round trip fails.  With only the
data rate changed to `Sps45Normal` (and the turbo flag consistently false),
the byte `update_reg` writes to register 0x01 decodes through
`get_data_rate`'s decoder as `Sps90Normal`; and with current route 2 set to
`Ain0`, the byte written to register 0x03 decodes through
`get_current_route_2`'s decoder as `Off`.  Registers 0x00 and 0x02 are shown
to round-trip on the same inputs. -/
theorem update_reg_roundtrip_fails :
    decode_data_rate (reg1val { initConfig with data_rate := .Sps45Normal })
      = .Sps90Normal ∧
    ({ initConfig with data_rate := .Sps45Normal } : Config).data_rate
      = .Sps45Normal ∧
    decode_current_route_2 (reg3val { initConfig with current_route_2 := .Ain0 })
      = .Off ∧
    ({ initConfig with current_route_2 := .Ain0 } : Config).current_route_2
      = .Ain0 ∧
    decode_gain (reg0val { initConfig with gain := .Gain64 }) = .Gain64 ∧
    decode_crc (reg2val { initConfig with crc := .Crc16 }) = .Crc16 := by
  decide

/-- Claim C4: for each logical operation, the serial (stream) variant emits
exactly the I2C (bus) variant's bytes with one leading framing byte 0x55
prepended, performs exactly one flush where the I2C variant performs none,
and the opcode and payload bytes are identical. -/
theorem serial_is_framed_i2c :
    (∀ register data,
      (SerialInterface.write_register register data).bytes
        = 0x55 :: (I2cInterface.write_register register data).bytes ∧
      (SerialInterface.write_register register data).flushes = 1 ∧
      (I2cInterface.write_register register data).flushes = 0) ∧
    (∀ payload,
      (SerialInterface.write_data payload).bytes
        = 0x55 :: (I2cInterface.write_data payload).bytes ∧
      (SerialInterface.write_data payload).flushes = 1 ∧
      (I2cInterface.write_data payload).flushes = 0) ∧
    (∀ register,
      (SerialInterface.read_register_request register).bytes
        = 0x55 :: (I2cInterface.read_register_request register).bytes ∧
      (SerialInterface.read_register_request register).flushes = 1 ∧
      (I2cInterface.read_register_request register).flushes = 0) ∧
    (SerialInterface.read_data_request.bytes
        = 0x55 :: I2cInterface.read_data_request.bytes ∧
      SerialInterface.read_data_request.flushes = 1 ∧
      I2cInterface.read_data_request.flushes = 0) :=
  ⟨fun _ _ => ⟨rfl, rfl, rfl⟩, fun _ => ⟨rfl, rfl, rfl⟩,
   fun _ => ⟨rfl, rfl, rfl⟩, rfl, rfl, rfl⟩

/-- Claim C5: in every state reachable from construction by setter calls, the
stored turbo flag equals the low bit of the stored data-rate code; and
`set_data_rate` stores the rate, derives the turbo flag from the low bit of
the stored code, and performs exactly one bus write, to register 0x01, whose
byte is packed from the updated mirror (so both fields travel in that single
write). -/
theorem turbo_mode_tracks_data_rate :
    (∀ ops : List Op, turboConsistent (runOps ops)) ∧
    (∀ (E : Type) (bus : BusModel E) (c : Config) (rate : DataRate),
      (set_data_rate bus c rate).cfg.data_rate = rate ∧
      (set_data_rate bus c rate).cfg.turbo_mode = ((rate.toVal &&& 0b1) == 1) ∧
      (set_data_rate bus c rate).trace
        = [.writeRegisterOp 0x01 (reg1val (set_data_rate bus c rate).cfg)]) :=
  ⟨fun ops => foldl_turboConsistent ops initConfig rfl,
   fun _ _ _ _ => ⟨rfl, rfl, rfl⟩⟩

/-- Claim C6: the command opcodes are the fixed constants of the datasheet,
and for every register address 0-3 and any value, both write-register
variants emit the two logical bytes `WReg | (address << 1)` and `value`
(after the 0x55 framing on serial), with the opcode byte equal to
`0b1000000 + 2 * address`. -/
theorem write_register_opcode_bytes :
    Commands.Reset.toVal = 0b110 ∧ Commands.StartSync.toVal = 0b1000 ∧
    Commands.PowerDown.toVal = 0b10 ∧ Commands.RData.toVal = 0b10000 ∧
    Commands.RReg.toVal = 0b0100000 ∧ Commands.WReg.toVal = 0b1000000 ∧
    ∀ reg, reg < 4 → ∀ value,
      I2cInterface.write_register reg value
        = ⟨[0b1000000 ||| reg <<< 1, value], 0⟩ ∧
      SerialInterface.write_register reg value
        = ⟨[0x55, 0b1000000 ||| reg <<< 1, value], 1⟩ ∧
      0b1000000 ||| reg <<< 1 = 0b1000000 + 2 * reg := by
  refine ⟨rfl, rfl, rfl, rfl, rfl, rfl, ?_⟩
  intro reg hreg value
  interval_cases reg <;> exact ⟨rfl, rfl, rfl⟩

/-- Witness for claim C6 at register address 3 and value 0xAB. -/
theorem write_register_opcode_bytes_witness :
    I2cInterface.write_register 3 0xAB = ⟨[0b1000110, 0xAB], 0⟩ ∧
    SerialInterface.write_register 3 0xAB = ⟨[0x55, 0b1000110, 0xAB], 1⟩ ∧
    0b1000000 ||| 3 <<< 1 = 0b1000000 + 2 * 3 :=
  write_register_opcode_bytes.2.2.2.2.2.2 3 (by decide) 0xAB

/-- Claim C7: both read-data variants request conversion data with the
`RData` opcode (serial adds only the 0x55 framing), the serial variant
consumes exactly three response bytes, and the three bytes are assembled
most-significant first: the result equals `msb * 2^16 + csb * 2^8 + lsb`,
which lies below `2^24` (so it occupies only the low 24 bits of the
returned `u32`). -/
theorem read_data_msb_first :
    I2cInterface.read_data_request.bytes = [Commands.RData.toVal] ∧
    SerialInterface.read_data_request.bytes = 0x55 :: [Commands.RData.toVal] ∧
    ∀ msb csb lsb rest, msb < 256 → csb < 256 → lsb < 256 →
      I2cInterface.read_data_value msb csb lsb
        = msb * 2 ^ 16 + csb * 2 ^ 8 + lsb ∧
      SerialInterface.read_data_responses (msb :: csb :: lsb :: rest)
        = some (msb * 2 ^ 16 + csb * 2 ^ 8 + lsb, rest) ∧
      I2cInterface.read_data_value msb csb lsb < 2 ^ 24 := by
  refine ⟨rfl, rfl, ?_⟩
  intro msb csb lsb rest hm hc hl
  have hlow : csb <<< 8 ||| lsb = csb * 2 ^ 8 + lsb :=
    lor_shiftLeft_add csb lsb 8 (by omega)
  have hfit : csb * 2 ^ 8 + lsb < 2 ^ 16 := by omega
  have hval : I2cInterface.read_data_value msb csb lsb
      = msb * 2 ^ 16 + csb * 2 ^ 8 + lsb := by
    unfold I2cInterface.read_data_value
    rw [Nat.lor_assoc, hlow, lor_shiftLeft_add msb _ 16 hfit]
    omega
  refine ⟨hval, ?_, by rw [hval]; omega⟩
  show some ((msb <<< 16) ||| (csb <<< 8) ||| lsb, rest)
      = some (msb * 2 ^ 16 + csb * 2 ^ 8 + lsb, rest)
  rw [show (msb <<< 16) ||| (csb <<< 8) ||| lsb
      = I2cInterface.read_data_value msb csb lsb from rfl, hval]

/-- Witness for claim C7 at response bytes 0x12, 0x34, 0x56 with a trailing
stream byte. -/
theorem read_data_msb_first_witness :
    I2cInterface.read_data_value 0x12 0x34 0x56
      = 0x12 * 2 ^ 16 + 0x34 * 2 ^ 8 + 0x56 ∧
    SerialInterface.read_data_responses [0x12, 0x34, 0x56, 0x78]
      = some (0x12 * 2 ^ 16 + 0x34 * 2 ^ 8 + 0x56, [0x78]) ∧
    I2cInterface.read_data_value 0x12 0x34 0x56 < 2 ^ 24 :=
  read_data_msb_first.2.2 0x12 0x34 0x56 [0x78]
    (by decide) (by decide) (by decide)

/-- Claim C8 counterexample: the claim includes the mux field among the
decoders, but the source has no `Mux::from`.  `get_input_mux`'s decoder
passes the code through raw: on the byte 0xF0, whose mux field is the
undefined code 0b1111, it returns 15, which is the code of no `Mux`
variant — so the mux decode of an invalid code returns neither a matching
enumerated variant nor any documented default. -/
theorem mux_decoder_missing_no_default :
    decode_input_mux 0xF0 = 15 ∧ (∀ m : Mux, Mux.toVal m ≠ 15) := by
  decide

/-- Claim C8 as amended: each of the enum decode functions that exist
(gain, data rate, current level, current route, CRC, voltage reference) is
total over `u8`: on the code of any variant it returns exactly that
variant, and on every other byte-range code it returns the documented
default (`Gain1`, `Sps20Normal`, `Off` for both current level and current
route, `Disabled`, `Internal`).  The mux field has no enum decoder:
`get_input_mux` returns the raw 4-bit code, recovering every valid mux
code exactly and staying below 16 on any byte, with no default applied. -/
theorem field_decoders_total_with_defaults :
    (∀ g : Gain, Gain.fromVal g.toVal = g) ∧
    (∀ v, v < 256 → (∀ g : Gain, g.toVal ≠ v) → Gain.fromVal v = .Gain1) ∧
    (∀ d : DataRate, DataRate.fromVal d.toVal = d) ∧
    (∀ v, v < 256 → (∀ d : DataRate, d.toVal ≠ v) →
      DataRate.fromVal v = .Sps20Normal) ∧
    (∀ s : CurrentSource, CurrentSource.fromVal s.toVal = s) ∧
    (∀ v, v < 256 → (∀ s : CurrentSource, s.toVal ≠ v) →
      CurrentSource.fromVal v = .Off) ∧
    (∀ r : CurrentRoute, CurrentRoute.fromVal r.toVal = r) ∧
    (∀ v, v < 256 → (∀ r : CurrentRoute, r.toVal ≠ v) →
      CurrentRoute.fromVal v = .Off) ∧
    (∀ c : Crc, Crc.fromVal c.toVal = c) ∧
    (∀ v, v < 256 → (∀ c : Crc, c.toVal ≠ v) → Crc.fromVal v = .Disabled) ∧
    (∀ q : ℚ, VRef.fromVal 0b00 q = .Internal ∧ VRef.fromVal 0b01 q = .External q ∧
      VRef.fromVal 0b10 q = .AnalogSupply q) ∧
    (∀ v, v < 256 → 2 < v → ∀ q : ℚ, VRef.fromVal v q = .Internal) ∧
    (∀ m : Mux, ∀ lo, lo < 16 → decode_input_mux (m.toVal <<< 4 ||| lo) = m.toVal) ∧
    (∀ val, val < 256 → decode_input_mux val < 16) := by
  refine ⟨by decide, by decide, by decide, by decide, by decide, by decide,
    by decide, by decide, by decide, by decide,
    fun q => ⟨rfl, rfl, rfl⟩, ?_, by decide, by decide⟩
  intro v _ h2 q
  obtain ⟨m, rfl⟩ : ∃ m, v = m + 3 := ⟨v - 3, by omega⟩
  rfl

/-- Witness for claim C8 on the invalid codes 9 (gain), 14 (data rate),
200 (voltage reference), and on the valid mux code of `Shorted` packed
over a nonzero low nibble. -/
theorem field_decoders_total_with_defaults_witness :
    Gain.fromVal 9 = .Gain1 ∧ DataRate.fromVal 14 = .Sps20Normal ∧
    VRef.fromVal 200 (1 / 2) = .Internal ∧
    decode_input_mux (Mux.toVal .Shorted <<< 4 ||| 5) = Mux.toVal .Shorted ∧
    decode_input_mux 0xF0 < 16 :=
  ⟨field_decoders_total_with_defaults.2.1 9 (by decide) (by decide),
   field_decoders_total_with_defaults.2.2.2.1 14 (by decide) (by decide),
   field_decoders_total_with_defaults.2.2.2.2.2.2.2.2.2.2.2.1 200
     (by decide) (by decide) (1 / 2),
   field_decoders_total_with_defaults.2.2.2.2.2.2.2.2.2.2.2.2.1 .Shorted 5
     (by decide),
   field_decoders_total_with_defaults.2.2.2.2.2.2.2.2.2.2.2.2.2 0xF0
     (by decide)⟩

/-- Claim C10: every setter writes its argument into the host-side mirror
before attempting the transport write, so the mirror holds the new value
whatever the bus returns, and in particular still holds it when the
transport write fails with a communication error. -/
theorem mirror_updated_before_transport_write :
    ∀ (E : Type) (bus : BusModel E) (c : Config) (op : Op),
      opMirrorHolds op (runOp bus c op).cfg ∧
      (∀ e : E, (runOp bus c op).res = .error (.CommError e) →
        opMirrorHolds op (runOp bus c op).cfg) := by
  intro E bus c op
  refine ⟨?_, fun _ _ => ?_⟩ <;> cases op <;> rfl

/-- Witness for claim C10: on a bus whose writes always fail, `set_gain`
returns a communication error and the mirror still holds the new gain. -/
theorem mirror_updated_before_transport_write_witness :
    opMirrorHolds (.opGain .Gain8) (runOp failBus initConfig (.opGain .Gain8)).cfg ∧
    (runOp failBus initConfig (.opGain .Gain8)).res = .error (.CommError ()) :=
  ⟨(mirror_updated_before_transport_write Unit failBus initConfig
      (.opGain .Gain8)).2 () rfl,
   rfl⟩
